import Mathlib

/-!  Shallow embedding of the descriptor definitions in
`adafruit_usb_descriptor/standard.py`.

Each Lean definition mirrors one Python definition from that file.  Python
byte strings and bytearrays are `List Nat` whose entries are below 256;
Python operations that can raise an exception return `Except PyError` or
`Option`.  The generic descriptor engine lives in the module `core`, which is
not among the sources; the few pieces of it that `standard.py` relies on are
modelled from the specification and their doc comments say so.
-/

/-- Python exception classes that the embedded code can raise. -/
inductive PyError where
  | missingFieldError
  | valueOutOfRangeError
  | attributeError
  | structError
  | valueError
  | unicodeDecodeError
deriving DecidableEq

/-- A Python byte string or bytearray: a list of byte values. -/
abbrev Bytes := List Nat

/-- UTF-16 little-endian encoding of one Unicode scalar value, as produced by
the Python text codec: code points below 0x10000 become one little-endian
16-bit unit, larger ones a surrogate pair. -/
def utf16leChar (c : Nat) : Bytes :=
  if c < 0x10000 then [c % 256, c / 256 % 256]
  else
    let v := c - 0x10000
    let hi := 0xD800 + v / 0x400
    let lo := 0xDC00 + v % 0x400
    [hi % 256, hi / 256 % 256, lo % 256, lo / 256 % 256]

/-- UTF-16LE encoding of a text, the text given as its Unicode scalar
values.  This is what the Python expression encoding a string as utf-16-le
returns. -/
def utf16le (text : List Nat) : Bytes := (text.map utf16leChar).flatten

/-- UTF-16LE decoding (strict, as the Python bytes decode method): pairs of
bytes form little-endian code units, a high surrogate must be followed by a
low surrogate, and odd lengths or unpaired surrogates raise an error. -/
def utf16leDecode : Bytes → Except PyError (List Nat)
  | [] => .ok []
  | [_] => .error .unicodeDecodeError
  | a :: b :: rest =>
    let u := a + 256 * b
    if u < 0xD800 ∨ 0xE000 ≤ u then
      (utf16leDecode rest).map fun t => u :: t
    else if u < 0xDC00 then
      match rest with
      | c :: d :: rest2 =>
        let v := c + 256 * d
        if 0xDC00 ≤ v ∧ v < 0xE000 then
          (utf16leDecode rest2).map fun t =>
            (0x10000 + (u - 0xD800) * 0x400 + (v - 0xDC00)) :: t
        else .error .unicodeDecodeError
      | _ => .error .unicodeDecodeError
    else .error .unicodeDecodeError

/-- Python list or bytes slice `xs[a:b]` for `a ≤ b`: out-of-range bounds
clamp to the sequence length. -/
def pySlice (xs : Bytes) (a b : Nat) : Bytes := (xs.drop a).take (b - a)

/-- State of a `StringDescriptor` instance: the two attributes its
constructor may set.  `none` models an attribute that was never assigned. -/
structure StringDescriptor where
  _bString : Option Bytes
  _bLength : Option Nat
deriving DecidableEq

/-- The single `value` argument of the `StringDescriptor` constructor: either
a Python `str` (given by its Unicode scalar values) or a byte sequence. -/
inductive StrValue where
  | str (text : List Nat)
  | seq (raw : Bytes)

/-- The `bDescriptorType` property of `StringDescriptor`: always 3. -/
def StringDescriptor.bDescriptorType (_ : StringDescriptor) : Nat := 3

/-- The `StringDescriptor` constructor.  A `str` argument is encoded as
UTF-16LE and the length attribute is set to the encoded byte count plus 2.
A sequence argument of length at least 2 has its first byte stored as the
length, its second byte checked to be 3 (`ValueError` otherwise), and the
slice `value[2:2+bLength]` stored as the encoded string.  Any other argument
falls through both branches and leaves both attributes unset. -/
def StringDescriptor.init : StrValue → Except PyError StringDescriptor
  | .str text =>
    let e := utf16le text
    .ok ⟨some e, some (e.length + 2)⟩
  | .seq raw =>
    if 1 < raw.length then
      let l := raw.headD 0
      if raw.get? 1 ≠ some 3 then .error .valueError
      else .ok ⟨some (pySlice raw 2 (2 + l)), some l⟩
    else .ok ⟨none, none⟩

/-- Serialization of a `StringDescriptor`: pack the length byte, the type
byte 3 and the stored encoded string.  Reading a never-assigned attribute
raises `AttributeError`; the byte pack rejects a length above 255. -/
def StringDescriptor.toBytes (d : StringDescriptor) : Except PyError Bytes :=
  match d._bString with
  | none => .error .attributeError
  | some s =>
    match d._bLength with
    | none => .error .attributeError
    | some l =>
      if l ≤ 255 then .ok ([l, d.bDescriptorType] ++ s) else .error .structError

/-- The `bString` property getter: decode the stored encoded string as
UTF-16LE; the attribute read raises `AttributeError` when it was never
assigned. -/
def StringDescriptor.getBString (d : StringDescriptor) : Except PyError (List Nat) :=
  match d._bString with
  | none => .error .attributeError
  | some s => utf16leDecode s

/-- Attribute lookup of the name `encoded` on a `StringDescriptor`: the class
defines no attribute or property of that name, so the lookup always raises
`AttributeError`. -/
def StringDescriptor.getattrEncoded (_ : StringDescriptor) : Except PyError Bytes :=
  .error .attributeError

/-- The `bString` property setter: it first stores the UTF-16LE encoding of
the new value into the encoded-string attribute, then evaluates the length of
`self.encoded`, an attribute lookup.  The result is the outcome of the call
together with the instance state after it. -/
def StringDescriptor.setBString (d : StringDescriptor) (value : List Nat) :
    Except PyError Unit × StringDescriptor :=
  let d1 : StringDescriptor := { d with _bString := some (utf16le value) }
  match d1.getattrEncoded with
  | .error e => (.error e, d1)
  | .ok enc => (.ok (), { d1 with _bLength := some (enc.length + 2) })

/-- Width in bytes of a field format character as the schema tables use it:
only the unsigned formats B (one byte) and H (two bytes) occur in the
source. -/
def formatWidth (f : String) : Nat := if f = "H" then 2 else 1

/-- Little-endian unsigned packing of a value into `width` bytes. -/
def packLE (width value : Nat) : Bytes :=
  (List.range width).map fun i => value / 256 ^ i % 256

/-- One schema field: name, format character, and default value, where `none`
marks a required field.  This is the shape of the entries of the `fields`
class attribute in the source. -/
abbrev FieldSpec := String × String × Option Nat

/-- Modelled from the spec: the field-packing loop of the descriptor engine
constructor (`core.Descriptor`: the module `core` is not among the sources).
In schema order, a caller-supplied value is validated against the field width
(`ValueOutOfRangeError` when it does not fit) and packed little-endian, a
missing value falls back to the schema default, and a missing value for a
required field raises `MissingFieldError`. -/
def packFields (fs : List FieldSpec) (kwargs : String → Option Nat) :
    Except PyError Bytes :=
  match fs with
  | [] => .ok []
  | (n, fmt, dflt) :: rest =>
    let w := formatWidth fmt
    match kwargs n with
    | some v =>
      if v < 256 ^ w then (packFields rest kwargs).map fun tl => packLE w v ++ tl
      else .error .valueOutOfRangeError
    | none =>
      match dflt with
      | some v => (packFields rest kwargs).map fun tl => packLE w v ++ tl
      | none => .error .missingFieldError

/-- Modelled from the spec: serialization of the fixed record of a
schema-driven descriptor (the base `core.Descriptor`, not among the sources):
the header bytes `bLength` and `bDescriptorType` followed by the packed field
area `data`, which — as the direct indexing `self.data[0]` and `self.data[2]`
in `standard.py` shows — does not itself contain the header. -/
def packRecord (bLength bDescriptorType : Nat) (data : Bytes) : Bytes :=
  bLength :: bDescriptorType :: data

/-- Python bytearray item assignment `data[i] = v`: it raises when the index
is out of range or the value does not fit one byte. -/
def bytearraySet (l : Bytes) (i v : Nat) : Option Bytes :=
  if i < l.length ∧ v < 256 then some (l.set i v) else none

/-- The `fields` class attribute of `EndpointDescriptor`. -/
def EndpointDescriptor.fields : List FieldSpec :=
  [("bEndpointAddress", "B", none),
   ("bmAttributes", "B", none),
   ("wMaxPacketSize", "H", some 0x40),
   ("bInterval", "B", some 0)]

def EndpointDescriptor.bLength : Nat := 0x07

def EndpointDescriptor.bDescriptorType : Nat := 0x5

def EndpointDescriptor.TYPE_CONTROL : Nat := 0b00

def EndpointDescriptor.TYPE_ISOCHRONOUS : Nat := 0b01

def EndpointDescriptor.TYPE_BULK : Nat := 0b10

def EndpointDescriptor.TYPE_INTERRUPT : Nat := 0b11

def EndpointDescriptor.DIRECTION_IN : Nat := 0x80

def EndpointDescriptor.DIRECTION_OUT : Nat := 0x00

/-- A subdescriptor as the `InterfaceDescriptor` serialization uses it: any
value exposing a `bDescriptorType` tag and its serialized bytes (duck
typing over the capability set of the spec). -/
structure Child where
  bDescriptorType : Nat
  toBytes : Bytes
deriving DecidableEq

/-- Instance state of an `InterfaceDescriptor`: the packed field area `data`
(7 bytes once constructed, the header not included) and the
`subdescriptors` list set up by its constructor. -/
structure InterfaceDescriptor where
  data : Bytes
  subdescriptors : List Child
deriving DecidableEq

/-- The `fields` class attribute of `InterfaceDescriptor`. -/
def InterfaceDescriptor.fields : List FieldSpec :=
  [("bInterfaceNumber", "B", some 0),
   ("bAlternateSetting", "B", some 0),
   ("bNumEndpoints", "B", some 0),
   ("bInterfaceClass", "B", none),
   ("bInterfaceSubClass", "B", some 0),
   ("bInterfaceProtocol", "B", some 0),
   ("iInterface", "B", some 0)]

def InterfaceDescriptor.bLength : Nat := 0x09

def InterfaceDescriptor.bDescriptorType : Nat := 0x4

/-- The loop inside the `InterfaceDescriptor` serialization: collect the bytes
of every subdescriptor in order and count the subdescriptors whose descriptor
type equals the endpoint descriptor type. -/
def interfaceScan (subs : List Child) : Nat × Bytes :=
  subs.foldl
    (fun acc desc =>
      (if desc.bDescriptorType == EndpointDescriptor.bDescriptorType
         then acc.1 + 1 else acc.1,
       acc.2 ++ desc.toBytes))
    (0, [])

/-- Serialization of an `InterfaceDescriptor`: run the subdescriptor loop,
patch the endpoint count into byte 2 of the field area (the statement
`self.data[2] = endpoint_count`), then emit the own fixed record followed by
the collected subdescriptor bytes. -/
def InterfaceDescriptor.toBytes (d : InterfaceDescriptor) : Option Bytes :=
  let scan := interfaceScan d.subdescriptors
  match bytearraySet d.data 2 scan.1 with
  | none => none
  | some data1 =>
    some (packRecord InterfaceDescriptor.bLength InterfaceDescriptor.bDescriptorType data1
          ++ scan.2)

/-- Number of direct subdescriptors of an interface carrying the endpoint
descriptor type. -/
def numEndpointChildren (d : InterfaceDescriptor) : Nat :=
  (d.subdescriptors.filter fun c =>
    c.bDescriptorType == EndpointDescriptor.bDescriptorType).length

/-- Instance state of a `ConfigurationDescriptor`: only the packed field area
(the class defines no subdescriptor list and does not override
serialization). -/
structure ConfigurationDescriptor where
  data : Bytes
deriving DecidableEq

/-- The `fields` class attribute of `ConfigurationDescriptor`. -/
def ConfigurationDescriptor.fields : List FieldSpec :=
  [("wTotalLength", "H", none),
   ("bNumInterfaces", "B", none),
   ("bConfigurationValue", "B", some 0x1),
   ("iConfiguration", "B", some 0),
   ("bmAttributes", "B", some 0x80),
   ("bMaxPower", "B", some 50)]

def ConfigurationDescriptor.bLength : Nat := 0x09

def ConfigurationDescriptor.bDescriptorType : Nat := 0x2

/-- Construction of a `ConfigurationDescriptor` from keyword arguments, via
the engine field-packing step. -/
def ConfigurationDescriptor.new (kwargs : String → Option Nat) :
    Except PyError ConfigurationDescriptor :=
  (packFields ConfigurationDescriptor.fields kwargs).map fun bs => ⟨bs⟩

/-- Serialization of a `ConfigurationDescriptor`: the class defines no
override, so it is exactly the fixed record of the base descriptor engine. -/
def ConfigurationDescriptor.toBytes (d : ConfigurationDescriptor) : Bytes :=
  packRecord ConfigurationDescriptor.bLength ConfigurationDescriptor.bDescriptorType d.data

/-- The little-endian 16-bit word at bytes 2 and 3 of a serialized
configuration record: the wire position of the `wTotalLength` field. -/
def wireWTotalLength (bs : Bytes) : Option Nat :=
  match bs.get? 2, bs.get? 3 with
  | some a, some b => some (a + 256 * b)
  | _, _ => none

/-- Default entry of the named field in a schema table: the inner `Option` is
`none` when the schema marks the field required, the outer one when the name
is absent from the table. -/
def fieldDefault (fs : List FieldSpec) (n : String) : Option (Option Nat) :=
  (fs.find? fun f => f.1 == n).map fun f => f.2.2

theorem interfaceScan_foldl (subs : List Child) (a : Nat) (bs : Bytes) :
    subs.foldl
      (fun acc desc =>
        (if desc.bDescriptorType == EndpointDescriptor.bDescriptorType
           then acc.1 + 1 else acc.1,
         acc.2 ++ desc.toBytes))
      (a, bs)
    = (a + (subs.filter fun c =>
          c.bDescriptorType == EndpointDescriptor.bDescriptorType).length,
       bs ++ (subs.map Child.toBytes).flatten) := by
  induction subs generalizing a bs with
  | nil => simp
  | cons c cs ih =>
    simp only [List.foldl_cons, List.filter_cons, List.map_cons, List.flatten_cons, ih]
    by_cases h : (c.bDescriptorType == EndpointDescriptor.bDescriptorType) = true
    · simp only [h, if_pos]
      rw [List.append_assoc, Prod.mk.injEq]
      exact ⟨by simp only [List.length_cons]; omega, rfl⟩
    · simp only [h, if_neg, Bool.false_eq_true, not_false_eq_true]
      rw [List.append_assoc]

theorem interfaceScan_eq (subs : List Child) :
    interfaceScan subs
      = ((subs.filter fun c =>
            c.bDescriptorType == EndpointDescriptor.bDescriptorType).length,
         (subs.map Child.toBytes).flatten) := by
  unfold interfaceScan
  rw [interfaceScan_foldl]
  simp

theorem get4_of_record (data1 rest : Bytes) (h : 2 < data1.length) (x y : Nat) :
    ((x :: y :: data1) ++ rest).get? 4 = data1.get? 2 := by
  rw [List.cons_append, List.cons_append, List.get?_cons_succ, List.get?_cons_succ,
    List.get?_append h]

/-- Claim C1: serializing an `InterfaceDescriptor` writes into
`bNumEndpoints` — byte 4 of the output, after the two header bytes — the
number of direct subdescriptors whose descriptor type equals the endpoint
descriptor type 5, for every mix and every interleaving of endpoint and
other children, whenever the field area has its constructed length 7 and the
count fits one byte. -/
theorem C1_bNumEndpoints_counts_endpoints (d : InterfaceDescriptor)
    (hlen : d.data.length = 7) (hk : numEndpointChildren d ≤ 255) :
    d.toBytes.bind (fun bs => bs.get? 4) = some (numEndpointChildren d) := by
  have hcond : 2 < d.data.length ∧
      (d.subdescriptors.filter fun c =>
        c.bDescriptorType == EndpointDescriptor.bDescriptorType).length < 256 :=
    ⟨by omega, by unfold numEndpointChildren at hk; omega⟩
  unfold InterfaceDescriptor.toBytes bytearraySet
  rw [interfaceScan_eq]
  dsimp only
  rw [if_pos hcond]
  dsimp only [packRecord]
  rw [Option.some_bind]
  rw [get4_of_record _ _ (by simp [hlen]),
    List.get?_set_eq_of_lt _ (show 2 < d.data.length by omega)]
  rfl

def C1iface : InterfaceDescriptor :=
  ⟨[0, 0, 0, 255, 0, 0, 0],
   [⟨33, [5, 33, 0, 1, 34]⟩, ⟨5, [7, 5, 129, 2, 64, 0, 0]⟩, ⟨9, [3, 9, 9]⟩]⟩

/-- Witness for C1: a concrete interface with one endpoint child between two
other children serializes with byte 4 equal to 1. -/
theorem C1_witness :
    C1iface.data.length = 7 ∧ numEndpointChildren C1iface ≤ 255 ∧
    C1iface.toBytes.bind (fun bs => bs.get? 4) = some (numEndpointChildren C1iface) :=
  ⟨by decide, by decide,
   C1_bNumEndpoints_counts_endpoints C1iface (by decide) (by decide)⟩

/-- Claim C6: the serialized composite is its own fixed record — header plus
the field area with the endpoint count patched in — immediately followed by
the concatenation of the bytes of every subdescriptor in exact insertion
order, duplicates preserved, whenever the field area has its constructed
length 7 and the endpoint count fits one byte. -/
theorem C6_children_concatenated_in_order (d : InterfaceDescriptor)
    (hlen : d.data.length = 7) (hk : numEndpointChildren d ≤ 255) :
    d.toBytes
      = some (packRecord InterfaceDescriptor.bLength InterfaceDescriptor.bDescriptorType
            (d.data.set 2 (numEndpointChildren d))
          ++ (d.subdescriptors.map Child.toBytes).flatten) := by
  have hcond : 2 < d.data.length ∧
      (d.subdescriptors.filter fun c =>
        c.bDescriptorType == EndpointDescriptor.bDescriptorType).length < 256 :=
    ⟨by omega, by unfold numEndpointChildren at hk; omega⟩
  unfold InterfaceDescriptor.toBytes bytearraySet
  rw [interfaceScan_eq]
  dsimp only
  rw [if_pos hcond]
  unfold numEndpointChildren
  rfl

def C6iface : InterfaceDescriptor :=
  ⟨[1, 0, 0, 255, 0, 0, 0], [⟨5, [7, 5]⟩, ⟨5, [7, 5]⟩]⟩

/-- Witness for C6: a concrete interface whose two subdescriptors are equal
values keeps both copies in the output, in order. -/
theorem C6_witness :
    C6iface.data.length = 7 ∧ numEndpointChildren C6iface ≤ 255 ∧
    C6iface.toBytes
      = some (packRecord InterfaceDescriptor.bLength InterfaceDescriptor.bDescriptorType
            (C6iface.data.set 2 (numEndpointChildren C6iface))
          ++ (C6iface.subdescriptors.map Child.toBytes).flatten) :=
  ⟨by decide, by decide,
   C6_children_concatenated_in_order C6iface (by decide) (by decide)⟩

theorem packFields_nil (kw : String → Option Nat) : packFields [] kw = .ok [] := rfl

theorem packFields_cons_def (n fmt : String) (dflt : Option Nat) (rest : List FieldSpec)
    (kw : String → Option Nat) :
    packFields ((n, fmt, dflt) :: rest) kw
      = match kw n with
        | some v =>
          if v < 256 ^ formatWidth fmt then
            (packFields rest kw).map fun tl => packLE (formatWidth fmt) v ++ tl
          else .error .valueOutOfRangeError
        | none =>
          match dflt with
          | some v => (packFields rest kw).map fun tl => packLE (formatWidth fmt) v ++ tl
          | none => .error .missingFieldError := rfl

theorem packFields_cons (n fmt : String) (dflt : Option Nat) (rest : List FieldSpec)
    (kw : String → Option Nat) (bs : Bytes)
    (h : packFields ((n, fmt, dflt) :: rest) kw = .ok bs) :
    ∃ v tl, bs = packLE (formatWidth fmt) v ++ tl ∧ packFields rest kw = .ok tl ∧
      ((kw n = some v ∧ v < 256 ^ formatWidth fmt) ∨ (kw n = none ∧ dflt = some v)) := by
  rw [packFields_cons_def] at h
  cases hkw : kw n with
  | some v =>
    rw [hkw] at h
    dsimp only at h
    by_cases hv : v < 256 ^ formatWidth fmt
    · rw [if_pos hv] at h
      cases hrec : packFields rest kw with
      | ok tl =>
        rw [hrec] at h
        simp only [Except.map, Except.ok.injEq] at h
        exact ⟨v, tl, h.symm, rfl, Or.inl ⟨rfl, hv⟩⟩
      | error e =>
        rw [hrec] at h
        simp [Except.map] at h
    · rw [if_neg hv] at h
      simp at h
  | none =>
    rw [hkw] at h
    dsimp only at h
    cases dflt with
    | some v =>
      dsimp only at h
      cases hrec : packFields rest kw with
      | ok tl =>
        rw [hrec] at h
        simp only [Except.map, Except.ok.injEq] at h
        exact ⟨v, tl, h.symm, rfl, Or.inr ⟨rfl, rfl⟩⟩
      | error e =>
        rw [hrec] at h
        simp [Except.map] at h
    | none => simp at h

theorem packLE_length (w v : Nat) : (packLE w v).length = w := by
  simp [packLE]

theorem packFields_length (fs : List FieldSpec) (kw : String → Option Nat) (bs : Bytes)
    (h : packFields fs kw = .ok bs) :
    bs.length = (fs.map fun f => formatWidth f.2.1).sum := by
  induction fs generalizing bs with
  | nil =>
    rw [packFields_nil] at h
    simp only [Except.ok.injEq] at h
    simp [← h]
  | cons f rest ih =>
    obtain ⟨n, fmt, dflt⟩ := f
    obtain ⟨v, tl, hbs, hrest, _⟩ := packFields_cons n fmt dflt rest kw bs h
    subst hbs
    simp [packLE_length, ih tl hrest]

theorem packLE_two (v : Nat) : packLE 2 v = [v % 256, v / 256 % 256] := by
  norm_num [packLE, List.range_succ]

theorem packFields_config (kw : String → Option Nat) (bs : Bytes)
    (h : packFields ConfigurationDescriptor.fields kw = .ok bs) :
    bs.length = 7 ∧ ∃ v, kw ("wTotalLength") = some v ∧ v < 65536 ∧
      bs.get? 0 = some (v % 256) ∧ bs.get? 1 = some (v / 256 % 256) := by
  have hlen := packFields_length _ kw bs h
  unfold ConfigurationDescriptor.fields at h
  obtain ⟨v, tl, hbs, hrest, hcase⟩ := packFields_cons _ _ _ _ kw bs h
  have hw : formatWidth ("H") = 2 := rfl
  rw [hw, packLE_two] at hbs
  have hkwv : kw ("wTotalLength") = some v ∧ v < 65536 := by
    rcases hcase with ⟨hkw, hv⟩ | ⟨_, hd⟩
    · refine ⟨hkw, ?_⟩
      have h2 : (256 : Nat) ^ formatWidth ("H") = 65536 := rfl
      omega
    · exact absurd hd (by simp)
  refine ⟨hlen.trans (by rfl), v, hkwv.1, hkwv.2, ?_, ?_⟩
  · rw [hbs]
    rfl
  · rw [hbs]
    rfl

theorem wireWTotalLength_record (x y : Nat) (bs : Bytes) :
    wireWTotalLength (x :: y :: bs)
      = match bs.get? 0, bs.get? 1 with
        | some a, some b => some (a + 256 * b)
        | _, _ => none := by
  unfold wireWTotalLength
  rw [List.get?_cons_succ, List.get?_cons_succ, List.get?_cons_succ, List.get?_cons_succ]

def C2kwargs : String → Option Nat := fun n =>
  if n = ("wTotalLength") then some 100
  else if n = ("bNumInterfaces") then some 5
  else none

/-- Counterexample to claim C2: a configuration built with the caller-supplied
value 100 for `wTotalLength` serializes with that very value on the wire while
the whole serialized output is 9 bytes long — nothing is recomputed, and the
field does not equal the length of the serialized output. -/
theorem C2_counterexample :
    (ConfigurationDescriptor.new C2kwargs).map
        (fun d => (wireWTotalLength d.toBytes, d.toBytes.length))
      = .ok (some 100, 9) ∧ (100 : Nat) ≠ 9 :=
  ⟨by rfl, by decide⟩

/-- Claim C2 as amended: a `ConfigurationDescriptor` is a plain fixed-size
record with no children.  Serialization emits the header bytes 9 and 2
followed by the field area exactly as constructed, the output is always 9
bytes, and the `wTotalLength` word on the wire is the value the caller
supplied — no recomputation takes place. -/
theorem C2_no_recompute (kw : String → Option Nat) (d : ConfigurationDescriptor)
    (h : ConfigurationDescriptor.new kw = .ok d) :
    d.toBytes = 9 :: 2 :: d.data ∧ d.toBytes.length = 9 ∧
    wireWTotalLength d.toBytes = kw ("wTotalLength") := by
  unfold ConfigurationDescriptor.new at h
  cases hp : packFields ConfigurationDescriptor.fields kw with
  | error e =>
    rw [hp] at h
    simp [Except.map] at h
  | ok bs =>
    rw [hp] at h
    simp only [Except.map, Except.ok.injEq] at h
    obtain ⟨hlen, v, hkw, hv, h0, h1⟩ := packFields_config kw bs hp
    subst h
    refine ⟨rfl, ?_, ?_⟩
    · show (9 :: 2 :: bs).length = 9
      simp [hlen]
    · show wireWTotalLength (9 :: 2 :: bs) = kw ("wTotalLength")
      rw [wireWTotalLength_record, h0, h1, hkw]
      dsimp only
      congr 1
      omega

def C2wkwargs : String → Option Nat := fun n =>
  if n = ("wTotalLength") then some 1000
  else if n = ("bNumInterfaces") then some 2
  else none

def C2wconfig : ConfigurationDescriptor := ⟨[232, 3, 2, 1, 0, 128, 50]⟩

/-- Witness for the amended C2 at a concrete configuration with the supplied
value 1000 for `wTotalLength`. -/
theorem C2_witness :
    ConfigurationDescriptor.new C2wkwargs = .ok C2wconfig ∧
    (C2wconfig.toBytes = 9 :: 2 :: C2wconfig.data ∧ C2wconfig.toBytes.length = 9 ∧
      wireWTotalLength C2wconfig.toBytes = C2wkwargs ("wTotalLength")) :=
  ⟨by rfl, C2_no_recompute C2wkwargs C2wconfig (by rfl)⟩

set_option maxRecDepth 4000

theorem StringDescriptor.init_seq_def (raw : Bytes) :
    StringDescriptor.init (.seq raw)
      = if 1 < raw.length then
          if raw.get? 1 ≠ some 3 then .error .valueError
          else .ok ⟨some (pySlice raw 2 (2 + raw.headD 0)), some (raw.headD 0)⟩
        else .ok ⟨none, none⟩ := rfl

/-- Counterexample to claim C3: a text of 127 ASCII characters encodes to 254
bytes, so the descriptor length is 256 and exceeds 255, yet construction
succeeds — no error of any kind is raised and no length ceiling is checked. -/
theorem C3_counterexample :
    (StringDescriptor.init (.str (List.replicate 127 97))).map StringDescriptor._bLength
      = .ok (some 256) ∧ 255 < 256 :=
  ⟨by rfl, by decide⟩

/-- Claim C3 as amended: constructing a string descriptor from text always
succeeds, storing the UTF-16LE encoding and the length equal to the encoded
byte count plus 2; no length ceiling is enforced and no error can be raised
at construction time (an over-long descriptor only fails later, inside
serialization). -/
theorem C3_fromText_always_succeeds (text : List Nat) :
    StringDescriptor.init (.str text)
      = .ok ⟨some (utf16le text), some ((utf16le text).length + 2)⟩ := rfl

/-- Claim C4: a string descriptor built from text whose UTF-16LE encoding
fits the one-byte length ceiling serializes to exactly the two header bytes —
the length and the type 3 — followed by the encoded text. -/
theorem C4_serialize_header_then_text (text : List Nat)
    (h : (utf16le text).length ≤ 253) :
    (StringDescriptor.init (.str text)).bind StringDescriptor.toBytes
      = .ok (((utf16le text).length + 2) :: 3 :: utf16le text) := by
  show StringDescriptor.toBytes ⟨some (utf16le text), some ((utf16le text).length + 2)⟩ = _
  unfold StringDescriptor.toBytes
  dsimp only
  rw [if_pos (by omega)]
  rfl

/-- Witness for C4 at the text Hi (code points 72 and 105): the serialized
bytes are 06 03 48 00 69 00. -/
theorem C4_witness :
    (utf16le [72, 105]).length ≤ 253 ∧
    (StringDescriptor.init (.str [72, 105])).bind StringDescriptor.toBytes
      = .ok [6, 3, 72, 0, 105, 0] :=
  ⟨by decide, by rw [C4_serialize_header_then_text [72, 105] (by decide)]; rfl⟩

/-- Counterexample to claim C5: on the six-byte input whose first byte is 4,
the stored encoded bytes are the four bytes of the slice ending at index
2 + raw[0], not the two bytes of the slice ending at index raw[0] that the
claim describes. -/
theorem C5_counterexample :
    (StringDescriptor.init (.seq [4, 3, 72, 0, 105, 0])).map StringDescriptor._bString
      = .ok (some [72, 0, 105, 0]) ∧
    pySlice [4, 3, 72, 0, 105, 0] 2 4 = [72, 0] ∧
    ([72, 0, 105, 0] : Bytes) ≠ [72, 0] :=
  ⟨by rfl, by rfl, by decide⟩

/-- Claim C5 as amended: for every raw sequence of length at least 2,
construction from wire bytes sets the length to raw[0], fails with the
not-a-string-descriptor error exactly when raw[1] is not 3, and otherwise
stores the byte slice raw[2:2+raw[0]] — the slice of length raw[0] starting
at index 2 — to be decoded as UTF-16LE when the text is read. -/
theorem C5_fromWireBytes (raw : Bytes) (h2 : 2 ≤ raw.length) :
    (raw.get? 1 ≠ some 3 → StringDescriptor.init (.seq raw) = .error .valueError) ∧
    (raw.get? 1 = some 3 → StringDescriptor.init (.seq raw)
        = .ok ⟨some (pySlice raw 2 (2 + raw.headD 0)), some (raw.headD 0)⟩) := by
  constructor
  · intro h3
    rw [StringDescriptor.init_seq_def, if_pos (show 1 < raw.length by omega), if_pos h3]
  · intro h3
    rw [StringDescriptor.init_seq_def, if_pos (show 1 < raw.length by omega),
      if_neg (not_not_intro h3)]

/-- Witness for the amended C5 at a six-byte wire descriptor: the length is
its first byte 6 and the stored bytes are the four bytes after the header. -/
theorem C5_witness :
    2 ≤ ([6, 3, 72, 0, 105, 0] : Bytes).length ∧
    ([6, 3, 72, 0, 105, 0] : Bytes).get? 1 = some 3 ∧
    StringDescriptor.init (.seq [6, 3, 72, 0, 105, 0])
      = .ok ⟨some [72, 0, 105, 0], some 6⟩ := by
  refine ⟨by decide, by decide, ?_⟩
  rw [(C5_fromWireBytes [6, 3, 72, 0, 105, 0] (by decide)).2 (by decide)]
  rfl

/-- Counterexample to claim C7: the Interface schema gives the field
`bInterfaceNumber` the default value 0, so it is not a required field that
the caller must supply, contrary to the claim. -/
theorem C7_counterexample :
    fieldDefault InterfaceDescriptor.fields ("bInterfaceNumber") = some (some 0) ∧
    some (some 0) ≠ some (none : Option Nat) :=
  ⟨by rfl, by decide⟩

/-- Claim C7 as amended: the Interface schema has record length 9 and
descriptor type 4, with defaults alternateSetting 0, numEndpoints 0 (the
value recomputed at serialization), subclass 0, protocol 0, stringIndex 0 and
interfaceNumber 0; only the interface class is required. -/
theorem C7_interface_schema :
    InterfaceDescriptor.bLength = 9 ∧ InterfaceDescriptor.bDescriptorType = 4 ∧
    fieldDefault InterfaceDescriptor.fields ("bAlternateSetting") = some (some 0) ∧
    fieldDefault InterfaceDescriptor.fields ("bNumEndpoints") = some (some 0) ∧
    fieldDefault InterfaceDescriptor.fields ("bInterfaceSubClass") = some (some 0) ∧
    fieldDefault InterfaceDescriptor.fields ("bInterfaceProtocol") = some (some 0) ∧
    fieldDefault InterfaceDescriptor.fields ("iInterface") = some (some 0) ∧
    fieldDefault InterfaceDescriptor.fields ("bInterfaceClass") = some none ∧
    fieldDefault InterfaceDescriptor.fields ("bInterfaceNumber") = some (some 0) :=
  ⟨rfl, rfl, rfl, rfl, rfl, rfl, rfl, rfl, rfl⟩

/-- Claim C8: the Endpoint schema has record length 7 and descriptor type 5,
defaults maxPacketSize 0x40 and interval 0, required address and attributes,
transfer-type constants 0 (control), 1 (isochronous), 2 (bulk) and
3 (interrupt) — all fitting the low two bits — and direction constants
0x80 (IN) and 0x00 (OUT). -/
theorem C8_endpoint_schema :
    EndpointDescriptor.bLength = 7 ∧ EndpointDescriptor.bDescriptorType = 5 ∧
    fieldDefault EndpointDescriptor.fields ("wMaxPacketSize") = some (some 0x40) ∧
    fieldDefault EndpointDescriptor.fields ("bInterval") = some (some 0) ∧
    fieldDefault EndpointDescriptor.fields ("bEndpointAddress") = some none ∧
    fieldDefault EndpointDescriptor.fields ("bmAttributes") = some none ∧
    EndpointDescriptor.TYPE_CONTROL = 0 ∧ EndpointDescriptor.TYPE_ISOCHRONOUS = 1 ∧
    EndpointDescriptor.TYPE_BULK = 2 ∧ EndpointDescriptor.TYPE_INTERRUPT = 3 ∧
    EndpointDescriptor.TYPE_INTERRUPT < 4 ∧
    EndpointDescriptor.DIRECTION_IN = 0x80 ∧ EndpointDescriptor.DIRECTION_OUT = 0 :=
  ⟨rfl, rfl, rfl, rfl, rfl, rfl, rfl, rfl, rfl, rfl, by decide, rfl, rfl⟩

/-- Claim C9: constructing from a non-string sequence of length 0 or 1
raises no error and leaves both attributes unset, so a later serialization
or bString read on that instance fails with `AttributeError` and not with
any descriptor-specific error. -/
theorem C9_short_sequence_leaves_unset (raw : Bytes) (h : raw.length ≤ 1) :
    StringDescriptor.init (.seq raw) = .ok ⟨none, none⟩ ∧
    StringDescriptor.toBytes ⟨none, none⟩ = .error .attributeError ∧
    StringDescriptor.getBString ⟨none, none⟩ = .error .attributeError := by
  refine ⟨?_, rfl, rfl⟩
  rw [StringDescriptor.init_seq_def, if_neg (show ¬1 < raw.length by omega)]

/-- Witness for C9 at the empty sequence. -/
theorem C9_witness :
    ([] : Bytes).length ≤ 1 ∧
    (StringDescriptor.init (.seq []) = .ok ⟨none, none⟩ ∧
      StringDescriptor.toBytes ⟨none, none⟩ = .error .attributeError ∧
      StringDescriptor.getBString ⟨none, none⟩ = .error .attributeError) :=
  ⟨by decide, C9_short_sequence_leaves_unset [] (by decide)⟩

/-- Claim C10: assigning to the bString property always raises
`AttributeError` — the setter reads the attribute `encoded`, which no
`StringDescriptor` has — and the failure is not atomic: afterwards the stored
encoded text holds the UTF-16LE encoding of the new value while the stored
length is unchanged. -/
theorem C10_setter_always_fails (d : StringDescriptor) (value : List Nat) :
    (d.setBString value).1 = .error .attributeError ∧
    (d.setBString value).2._bString = some (utf16le value) ∧
    (d.setBString value).2._bLength = d._bLength :=
  ⟨rfl, rfl, rfl⟩
